import Mathlib

/-!
# Verification of the Voice Adventure backend (`backend/main.py`)

Shallow embedding of the image-generation backend:

* `make_image` embeds the Python helper `make_image` (provider call, decode,
  uuid filename, save to `static/`, wrapped `HTTPException` on any failure);
* `gather2` / `gather3` embed the `asyncio.gather` fan-outs used by
  `api_generate_choices` and the legacy `generate_scene` endpoint: all calls
  run (state is threaded through every call, matching the no-cancellation
  behaviour), and the aggregate is the full ordered result list or the
  first error;
* `api_generate_scene`, `api_generate_choices`, `generate_scene` embed the
  direct endpoints (failures re-raised as `HTTPException(500, str(e))`);
* `vapi_generate_scene` / `vapi_generate_choices` embed the webhook
  handlers: parse / envelope-validation errors become a single sentinel
  `"error"` result with HTTP 200, well-formed tool calls are routed by
  name, entries missing function/name/id are skipped, and an exception
  escaping the per-entry loop is caught at the top level and turned into a
  single sentinel error result.

External effects (the Gemini provider, PIL decode, file writes, uuid4) are
parameters of an `Env` record; the file store, the uuid supply and the log
of provider invocations are an explicit state `St`.
-/

/-- Embeds `fastapi.HTTPException`: a status code plus a detail message. -/
structure HttpError where
  status : Nat
  detail : String
deriving DecidableEq, Repr

/-- Starlette renders `str(HTTPException(code, detail))` as `"code: detail"`. -/
def HttpError.str (e : HttpError) : String :=
  toString e.status ++ ": " ++ e.detail

/-- The external collaborators of `make_image`:
`provider` is `client.models.generate_images` (prompt to image bytes, may
fail), `decode` is `Image.open` (bytes to image, may fail), `write` is
`img.save` (filename to unit, may fail), `uuid` is the `uuid.uuid4()`
supply, indexed by how many uuids were drawn so far. -/
structure Env where
  provider : String → Except String String
  decode : String → Except String String
  write : String → Except String Unit
  uuid : Nat → String

/-- The state threaded through a request: the filenames present in the
`static/` directory, the number of uuids drawn so far, and the log of
prompts sent to the provider (most recent first). -/
structure St where
  files : List String
  counter : Nat
  providerCalls : List String
deriving DecidableEq, Repr

/-- The empty starting state: no files, no uuids drawn, no provider calls. -/
def st0 : St := ⟨[], 0, []⟩

/-- Embeds `make_image(prompt)`: call the provider, decode the bytes, save under
`static/{uuid4()}.png`, return `/static/{filename}`; any exception is
wrapped into `HTTPException(500, "Failed to generate image: " + str(e))`. -/
def make_image (env : Env) (st : St) (prompt : String) :
    St × Except HttpError String :=
  let st1 : St := { st with providerCalls := prompt :: st.providerCalls }
  match env.provider prompt with
  | .error e => (st1, .error ⟨500, "Failed to generate image: " ++ e⟩)
  | .ok bytes =>
    match env.decode bytes with
    | .error e => (st1, .error ⟨500, "Failed to generate image: " ++ e⟩)
    | .ok _img =>
      let filename := env.uuid st1.counter ++ ".png"
      let st2 : St := { st1 with counter := st1.counter + 1 }
      match env.write filename with
      | .error e => (st2, .error ⟨500, "Failed to generate image: " ++ e⟩)
      | .ok _ =>
        ({ st2 with files := filename :: st2.files },
         .ok ("/static/" ++ filename))

/-- Embeds the `asyncio.gather` of two `make_image` executor calls: both calls run
(no cancellation on failure), the aggregate is the ordered pair of URLs
or the error of a failed call. -/
def gather2 (env : Env) (st : St) (pa pb : String) :
    St × Except HttpError (String × String) :=
  let (st1, ra) := make_image env st pa
  let (st2, rb) := make_image env st1 pb
  (st2,
    match ra, rb with
    | .ok a, .ok b => .ok (a, b)
    | .error e, _ => .error e
    | .ok _, .error e => .error e)

/-- Embeds the `asyncio.gather` of three `make_image` executor calls (legacy endpoint). -/
def gather3 (env : Env) (st : St) (p1 p2 p3 : String) :
    St × Except HttpError (String × String × String) :=
  let (st1, r1) := make_image env st p1
  let (st2, r2) := make_image env st1 p2
  let (st3, r3) := make_image env st2 p3
  (st3,
    match r1, r2, r3 with
    | .ok a, .ok b, .ok c => .ok (a, b, c)
    | .error e, _, _ => .error e
    | .ok _, .error e, _ => .error e
    | .ok _, .ok _, .error e => .error e)

/-- Request body of `POST /api/generate_scene`. -/
structure GenerateSceneReq where
  scene_prompt : String
deriving DecidableEq, Repr

/-- Request body of `POST /api/generate_choices`. -/
structure GenerateChoicesReq where
  choice_a_prompt : String
  choice_b_prompt : String
  choice_a_text : String
  choice_b_text : String
deriving DecidableEq, Repr

/-- Request body of the legacy `POST /generate_scene`. -/
structure SceneReq where
  scene_prompt : String
  option_a : String
  option_b : String
deriving DecidableEq, Repr

/-- Response of `POST /api/generate_scene`. -/
structure SceneResponse where
  type : String
  sceneURL : String
  scene_prompt : String
deriving DecidableEq, Repr

/-- One labeled choice in the `/api/generate_choices` response. -/
structure Choice where
  label : String
  text : String
  url : String
  prompt : String
deriving DecidableEq, Repr

/-- Response of `POST /api/generate_choices`. -/
structure ChoicesResponse where
  type : String
  choices : List Choice
deriving DecidableEq, Repr

/-- One labeled option in the legacy response. -/
structure LegacyOption where
  label : String
  url : String
  prompt : String
deriving DecidableEq, Repr

/-- Response of the legacy `POST /generate_scene`. -/
structure LegacyResponse where
  sceneURL : String
  options : List LegacyOption
deriving DecidableEq, Repr

/-- Embeds `POST /api/generate_scene`: one `make_image` call; an escaping
exception is re-raised as `HTTPException(500, str(e))`. -/
def api_generate_scene (env : Env) (st : St) (req : GenerateSceneReq) :
    St × Except HttpError SceneResponse :=
  let (st1, r) := make_image env st req.scene_prompt
  match r with
  | .ok url => (st1, .ok ⟨"scene", url, req.scene_prompt⟩)
  | .error e => (st1, .error ⟨500, e.str⟩)

/-- Embeds `POST /api/generate_choices`: two concurrent `make_image` calls; an
escaping exception is re-raised as `HTTPException(500, str(e))`. -/
def api_generate_choices (env : Env) (st : St) (req : GenerateChoicesReq) :
    St × Except HttpError ChoicesResponse :=
  let (st1, r) := gather2 env st req.choice_a_prompt req.choice_b_prompt
  match r with
  | .ok (a_img, b_img) =>
      (st1, .ok ⟨"choices",
        [⟨"A", req.choice_a_text, a_img, req.choice_a_prompt⟩,
         ⟨"B", req.choice_b_text, b_img, req.choice_b_prompt⟩]⟩)
  | .error e => (st1, .error ⟨500, e.str⟩)

/-- Legacy `POST /generate_scene`: three concurrent `make_image` calls; an
escaping exception is re-raised as `HTTPException(500, str(e))`. -/
def generate_scene (env : Env) (st : St) (req : SceneReq) :
    St × Except HttpError LegacyResponse :=
  let (st1, r) := gather3 env st req.scene_prompt req.option_a req.option_b
  match r with
  | .ok (scene, a_img, b_img) =>
      (st1, .ok ⟨scene,
        [⟨"A", a_img, req.option_a⟩,
         ⟨"B", b_img, req.option_b⟩]⟩)
  | .error e => (st1, .error ⟨500, e.str⟩)

/-- Pydantic `VapiFunction`: optional name and optional argument mapping.
Argument values are JSON values in Python; the handlers only ever read them
out with `.get(key, default)` and interpolate them into strings, so they are
embedded as strings keyed by strings. -/
structure VapiFunction where
  name : Option String
  arguments : Option (List (String × String))
deriving DecidableEq, Repr

/-- Pydantic `VapiToolCall`: optional id, type and function. -/
structure VapiToolCall where
  id : Option String
  type : Option String
  function : Option VapiFunction
deriving DecidableEq, Repr

/-- Pydantic `VapiMessage`: optional type and optional tool-call list. -/
structure VapiMessage where
  type : Option String
  toolCallList : Option (List VapiToolCall)
deriving DecidableEq, Repr

/-- Pydantic `VapiRequest`: optional message. -/
structure VapiRequest where
  message : Option VapiMessage
deriving DecidableEq, Repr

/-- Pydantic `VapiResult`: a tool-call id plus a result text. -/
structure VapiResult where
  toolCallId : String
  result : String
deriving DecidableEq, Repr

/-- Pydantic `VapiResponse`: the list of results. -/
structure VapiResponse where
  results : List VapiResult
deriving DecidableEq, Repr

/-- A webhook HTTP reply: status code plus the `VapiResponse` body. The
Python handlers return a `VapiResponse` on every path, which FastAPI
serves with status 200. -/
structure VapiHttp where
  status : Nat
  body : VapiResponse
deriving DecidableEq, Repr

/-- The body of an inbound webhook request as the handler sees it after
`json.loads` and `VapiRequest(**json_data)`: `malformed` when `json.loads`
raises (any non-`ValidationError` exception), `invalid` when pydantic
raises `ValidationError`, `parsed` otherwise. -/
inductive Body where
  | malformed (msg : String)
  | invalid (msg : String)
  | parsed (req : VapiRequest)
deriving DecidableEq, Repr

/-- Embeds `function_args = tool_call.function.arguments or ...` (empty mapping when falsy). -/
def argsOrEmpty : Option (List (String × String)) → List (String × String)
  | none => []
  | some a => a

/-- Embeds `function_args.get(key, default)`. -/
def getArg (args : List (String × String)) (key default : String) : String :=
  match args.find? (fun kv => kv.1 = key) with
  | some kv => kv.2
  | none => default

/-- The per-entry loop of `/vapi/generate_scene`: skip entries whose
function, function name or id is missing or falsy; route
`generate_scene` to `make_image` on `scene_prompt` (defaulted); any other
name yields an `Unknown tool` result. An exception raised by `make_image`
escapes the loop (the `.error` aggregate). -/
def vapiSceneLoop (env : Env) : St → List VapiToolCall →
    St × Except HttpError (List VapiResult)
  | st, [] => (st, .ok [])
  | st, tc :: rest =>
    match tc.function with
    | none => vapiSceneLoop env st rest
    | some f =>
      match f.name with
      | none => vapiSceneLoop env st rest
      | some nm =>
        if nm = "" then vapiSceneLoop env st rest
        else
          match tc.id with
          | none => vapiSceneLoop env st rest
          | some id =>
            if id = "" then vapiSceneLoop env st rest
            else
              let args := argsOrEmpty f.arguments
              if nm = "generate_scene" then
                let scene_prompt :=
                  getArg args "scene_prompt" "A mysterious adventure scene..."
                let (st1, r) := make_image env st scene_prompt
                match r with
                | .error e => (st1, .error e)
                | .ok url =>
                  let (st2, rs) := vapiSceneLoop env st1 rest
                  (st2,
                    match rs with
                    | .ok l =>
                        .ok (⟨id, "Scene generated successfully! Image URL: "
                               ++ url⟩ :: l)
                    | .error e => .error e)
              else
                let (st2, rs) := vapiSceneLoop env st rest
                (st2,
                  match rs with
                  | .ok l => .ok (⟨id, "Unknown tool: " ++ nm⟩ :: l)
                  | .error e => .error e)

/-- The per-entry loop of `/vapi/generate_choices`: same skipping policy;
`generate_choices` extracts the four defaulted fields and fans out the two
prompts through `gather2`; any other name yields an `Unknown tool` result. -/
def vapiChoicesLoop (env : Env) : St → List VapiToolCall →
    St × Except HttpError (List VapiResult)
  | st, [] => (st, .ok [])
  | st, tc :: rest =>
    match tc.function with
    | none => vapiChoicesLoop env st rest
    | some f =>
      match f.name with
      | none => vapiChoicesLoop env st rest
      | some nm =>
        if nm = "" then vapiChoicesLoop env st rest
        else
          match tc.id with
          | none => vapiChoicesLoop env st rest
          | some id =>
            if id = "" then vapiChoicesLoop env st rest
            else
              let args := argsOrEmpty f.arguments
              if nm = "generate_choices" then
                let choice_a_prompt := getArg args "choice_a_prompt" "Option A"
                let choice_b_prompt := getArg args "choice_b_prompt" "Option B"
                let choice_a_text := getArg args "choice_a_text" "Choice A"
                let choice_b_text := getArg args "choice_b_text" "Choice B"
                let (st1, r) := gather2 env st choice_a_prompt choice_b_prompt
                match r with
                | .error e => (st1, .error e)
                | .ok (a_img, b_img) =>
                  let (st2, rs) := vapiChoicesLoop env st1 rest
                  (st2,
                    match rs with
                    | .ok l =>
                        .ok (⟨id, "Choices generated successfully! Choice A ("
                               ++ choice_a_text ++ "): " ++ a_img
                               ++ ", Choice B (" ++ choice_b_text ++ "): "
                               ++ b_img⟩ :: l)
                    | .error e => .error e)
              else
                let (st2, rs) := vapiChoicesLoop env st rest
                (st2,
                  match rs with
                  | .ok l => .ok (⟨id, "Unknown tool: " ++ nm⟩ :: l)
                  | .error e => .error e)

/-- Embeds `POST /vapi/generate_scene`: parse errors and a missing/empty envelope
give one sentinel `"error"` result; otherwise the per-entry loop runs, and
an exception escaping it is converted into one sentinel
`Server error: str(e)` result. Every path returns HTTP 200. -/
def vapi_generate_scene (env : Env) (st : St) (body : Body) : St × VapiHttp :=
  match body with
  | .malformed msg =>
      (st, ⟨200, ⟨[⟨"error", "Request parsing failed: " ++ msg⟩]⟩⟩)
  | .invalid msg =>
      (st, ⟨200, ⟨[⟨"error", "Request validation failed: " ++ msg⟩]⟩⟩)
  | .parsed req =>
    match req.message with
    | none => (st, ⟨200, ⟨[⟨"error", "No tool calls found in request"⟩]⟩⟩)
    | some m =>
      match m.toolCallList with
      | none => (st, ⟨200, ⟨[⟨"error", "No tool calls found in request"⟩]⟩⟩)
      | some [] => (st, ⟨200, ⟨[⟨"error", "No tool calls found in request"⟩]⟩⟩)
      | some (tc :: rest) =>
        let (st1, r) := vapiSceneLoop env st (tc :: rest)
        match r with
        | .ok results => (st1, ⟨200, ⟨results⟩⟩)
        | .error e =>
            (st1, ⟨200, ⟨[⟨"error", "Server error: " ++ e.str⟩]⟩⟩)

/-- Embeds `POST /vapi/generate_choices`: same protocol shell around
`vapiChoicesLoop`. Every path returns HTTP 200. -/
def vapi_generate_choices (env : Env) (st : St) (body : Body) : St × VapiHttp :=
  match body with
  | .malformed msg =>
      (st, ⟨200, ⟨[⟨"error", "Request parsing failed: " ++ msg⟩]⟩⟩)
  | .invalid msg =>
      (st, ⟨200, ⟨[⟨"error", "Request validation failed: " ++ msg⟩]⟩⟩)
  | .parsed req =>
    match req.message with
    | none => (st, ⟨200, ⟨[⟨"error", "No tool calls found in request"⟩]⟩⟩)
    | some m =>
      match m.toolCallList with
      | none => (st, ⟨200, ⟨[⟨"error", "No tool calls found in request"⟩]⟩⟩)
      | some [] => (st, ⟨200, ⟨[⟨"error", "No tool calls found in request"⟩]⟩⟩)
      | some (tc :: rest) =>
        let (st1, r) := vapiChoicesLoop env st (tc :: rest)
        match r with
        | .ok results => (st1, ⟨200, ⟨results⟩⟩)
        | .error e =>
            (st1, ⟨200, ⟨[⟨"error", "Server error: " ++ e.str⟩]⟩⟩)

/-- An entry survives the loop's skip check exactly when it has a function
object, a non-falsy name and a non-falsy id
(`not function or not function.name or not id` in the source). -/
def tcWellFormed (tc : VapiToolCall) : Bool :=
  match tc.function with
  | none => false
  | some f =>
    match f.name, tc.id with
    | some nm, some id => nm ≠ "" && id ≠ ""
    | _, _ => false

/-- The ids of the entries that survive the skip check, in request order. -/
def wellFormedIds (calls : List VapiToolCall) : List String :=
  calls.filterMap (fun tc =>
    if tcWellFormed tc then tc.id else none)

/-- An environment in which every provider call, decode and write succeeds;
uuid number `n` is rendered as the decimal string for `n`. -/
def envOk : Env :=
  ⟨fun _ => .ok "bytes", fun _ => .ok "img", fun _ => .ok (),
   fun n => toString n⟩

/-- An environment whose provider call always fails with cause `boom`. -/
def envBoom : Env :=
  ⟨fun _ => .error "boom", fun _ => .ok "img", fun _ => .ok (),
   fun n => toString n⟩

/-- An environment whose provider succeeds only on the prompt `p1` and
fails with cause `boom` on every other prompt. -/
def envP1 : Env :=
  ⟨fun p => if p = "p1" then .ok "bytes" else .error "boom",
   fun _ => .ok "img", fun _ => .ok (), fun _ => "u"⟩

/-- Whatever the outcome, one `make_image` call sends exactly one request
to the provider: the log grows by the prompt and nothing else. -/
theorem make_image_providerCalls (env : Env) (st : St) (prompt : String) :
    (make_image env st prompt).1.providerCalls = prompt :: st.providerCalls := by
  cases hp : env.provider prompt with
  | error e => simp [make_image, hp]
  | ok bytes =>
    cases hd : env.decode bytes with
    | error e => simp [make_image, hp, hd]
    | ok img =>
      cases hw : env.write (env.uuid st.counter ++ ".png") with
      | error e => simp [make_image, hp, hd, hw]
      | ok u => simp [make_image, hp, hd, hw]

/-- When `make_image` fails, the error is the uniform
`HTTPException(500, "Failed to generate image: " + cause)` where `cause`
is the message of the failing stage. -/
theorem make_image_error_shape (env : Env) (st : St) (prompt : String)
    (e : HttpError) (h : (make_image env st prompt).2 = .error e) :
    e.status = 500 ∧ ∃ cause, e.detail = "Failed to generate image: " ++ cause := by
  cases hp : env.provider prompt with
  | error c =>
    simp [make_image, hp] at h
    exact ⟨by rw [← h], c, by rw [← h]⟩
  | ok bytes =>
    cases hd : env.decode bytes with
    | error c =>
      simp [make_image, hp, hd] at h
      exact ⟨by rw [← h], c, by rw [← h]⟩
    | ok img =>
      cases hw : env.write (env.uuid st.counter ++ ".png") with
      | error c =>
        simp [make_image, hp, hd, hw] at h
        exact ⟨by rw [← h], c, by rw [← h]⟩
      | ok u => simp [make_image, hp, hd, hw] at h

/-- When `make_image` succeeds, the returned URL is `/static/` followed by
the freshly drawn uuid filename, and that filename is in the store of the
resulting state. -/
theorem make_image_ok_shape (env : Env) (st : St) (prompt url : String)
    (h : (make_image env st prompt).2 = .ok url) :
    url = "/static/" ++ (env.uuid st.counter ++ ".png") ∧
    (env.uuid st.counter ++ ".png") ∈ (make_image env st prompt).1.files := by
  cases hp : env.provider prompt with
  | error c => simp [make_image, hp] at h
  | ok bytes =>
    cases hd : env.decode bytes with
    | error c => simp [make_image, hp, hd] at h
    | ok img =>
      cases hw : env.write (env.uuid st.counter ++ ".png") with
      | error c => simp [make_image, hp, hd, hw] at h
      | ok u =>
        simp [make_image, hp, hd, hw] at h
        simp [make_image, hp, hd, hw, ← h]

/-- A file present before a `make_image` call is still present after it:
the store only ever grows. -/
theorem make_image_files_mono (env : Env) (st : St) (prompt : String)
    (f : String) (hf : f ∈ st.files) :
    f ∈ (make_image env st prompt).1.files := by
  cases hp : env.provider prompt with
  | error c => simpa [make_image, hp] using hf
  | ok bytes =>
    cases hd : env.decode bytes with
    | error c => simpa [make_image, hp, hd] using hf
    | ok img =>
      cases hw : env.write (env.uuid st.counter ++ ".png") with
      | error c => simpa [make_image, hp, hd, hw] using hf
      | ok u => simp [make_image, hp, hd, hw]; right; exact hf

/-- C6 counterexample: the wrapped error does not carry the original
prompt. Two different prompts produce the identical error value, and the
prompt text does not occur anywhere in the error detail (the prompt is
only printed to the server log). -/
theorem C6_counterexample_error_lacks_prompt :
    (make_image envBoom st0 "zebra").2 = (make_image envBoom st0 "ostrich").2 ∧
    (make_image envBoom st0 "zebra").2
      = .error ⟨500, "Failed to generate image: boom"⟩ ∧
    ¬ ("zebra".data <:+: "Failed to generate image: boom".data) := by
  exact ⟨rfl, rfl, by decide⟩

/-- C6 (amended): any provider, decode or write failure is wrapped into the
uniform `HTTPException(500, "Failed to generate image: " + cause)` carrying
the underlying cause (but not the prompt), and the provider is invoked
exactly once per `make_image` call — never retried. -/
theorem C6_uniform_wrapped_error_no_retry (env : Env) (st : St)
    (prompt : String) :
    (∀ e, (make_image env st prompt).2 = .error e →
      e.status = 500 ∧
      ∃ cause, e.detail = "Failed to generate image: " ++ cause) ∧
    (make_image env st prompt).1.providerCalls = prompt :: st.providerCalls :=
  ⟨fun e h => make_image_error_shape env st prompt e h,
   make_image_providerCalls env st prompt⟩

/-- C6 witness: the amended theorem applied to a concrete failing
environment. -/
theorem C6_uniform_wrapped_error_no_retry_witness :
    ((⟨500, "Failed to generate image: boom"⟩ : HttpError).status = 500 ∧
      ∃ cause, (⟨500, "Failed to generate image: boom"⟩ : HttpError).detail
        = "Failed to generate image: " ++ cause) ∧
    (make_image envBoom st0 "pp").1.providerCalls = "pp" :: st0.providerCalls :=
  ⟨(C6_uniform_wrapped_error_no_retry envBoom st0 "pp").1
      ⟨500, "Failed to generate image: boom"⟩ rfl,
   (C6_uniform_wrapped_error_no_retry envBoom st0 "pp").2⟩

/-- C7: every URL returned by a successful `make_image` call is
`/static/` plus the freshly drawn uuid filename and that file is in the
store when the call returns; consequently the scene endpoint's URL and
both URLs of the choices endpoint refer to files present in the final
state of the request. -/
theorem C7_returned_url_file_exists (env : Env) (st : St) (prompt : String) :
    (∀ url, (make_image env st prompt).2 = .ok url →
      ∃ fn, url = "/static/" ++ fn ∧
        fn ∈ (make_image env st prompt).1.files ∧
        fn = env.uuid st.counter ++ ".png") ∧
    (∀ req resp, (api_generate_scene env st req).2 = .ok resp →
      ∃ fn, resp.sceneURL = "/static/" ++ fn ∧
        fn ∈ (api_generate_scene env st req).1.files) ∧
    (∀ req resp, (api_generate_choices env st req).2 = .ok resp →
      ∀ c ∈ resp.choices, ∃ fn, c.url = "/static/" ++ fn ∧
        fn ∈ (api_generate_choices env st req).1.files) := by
  refine ⟨?_, ?_, ?_⟩
  · intro url h
    obtain ⟨hurl, hmem⟩ := make_image_ok_shape env st prompt url h
    exact ⟨env.uuid st.counter ++ ".png", hurl, hmem, rfl⟩
  · intro req resp h
    rcases hmi : make_image env st req.scene_prompt with ⟨st1, r⟩
    cases r with
    | error e => simp [api_generate_scene, hmi] at h
    | ok url =>
      obtain ⟨hurl, hmem⟩ := make_image_ok_shape env st req.scene_prompt url
        (by rw [hmi])
      simp [api_generate_scene, hmi] at h
      refine ⟨env.uuid st.counter ++ ".png", ?_, ?_⟩
      · rw [← h]; exact hurl
      · simp [api_generate_scene, hmi]
        have : (make_image env st req.scene_prompt).1 = st1 := by rw [hmi]
        rw [← this]; exact hmem
  · intro req resp h c hc
    rcases hma : make_image env st req.choice_a_prompt with ⟨st1, ra⟩
    rcases hmb : make_image env st1 req.choice_b_prompt with ⟨st2, rb⟩
    cases ra with
    | error e => simp [api_generate_choices, gather2, hma, hmb] at h
    | ok ua =>
      cases rb with
      | error e => simp [api_generate_choices, gather2, hma, hmb] at h
      | ok ub =>
        obtain ⟨hurla, hmema⟩ := make_image_ok_shape env st
          req.choice_a_prompt ua (by rw [hma])
        obtain ⟨hurlb, hmemb⟩ := make_image_ok_shape env st1
          req.choice_b_prompt ub (by rw [hmb])
        have hmema2 : env.uuid st.counter ++ ".png" ∈ st2.files := by
          have := make_image_files_mono env st1 req.choice_b_prompt
            (env.uuid st.counter ++ ".png") (by
              have h1 : (make_image env st req.choice_a_prompt).1 = st1 := by
                rw [hma]
              rw [← h1]; exact hmema)
          rw [hmb] at this; exact this
        have hmemb2 : env.uuid st1.counter ++ ".png" ∈ st2.files := by
          have h2 : (make_image env st1 req.choice_b_prompt).1 = st2 := by
            rw [hmb]
          rw [← h2]; exact hmemb
        simp [api_generate_choices, gather2, hma, hmb] at h
        subst h
        simp at hc
        rcases hc with hca | hcb
        · subst hca
          exact ⟨env.uuid st.counter ++ ".png", hurla, by
            simp [api_generate_choices, gather2, hma, hmb]; exact hmema2⟩
        · subst hcb
          exact ⟨env.uuid st1.counter ++ ".png", hurlb, by
            simp [api_generate_choices, gather2, hma, hmb]; exact hmemb2⟩

/-- C7 witness: the theorem applied to the all-succeeding environment at
a concrete prompt. -/
theorem C7_returned_url_file_exists_witness :
    ∃ fn, "/static/" ++ ("0" ++ ".png") = "/static/" ++ fn ∧
      fn ∈ (make_image envOk st0 "a cave").1.files ∧
      fn = envOk.uuid st0.counter ++ ".png" :=
  (C7_returned_url_file_exists envOk st0 "a cave").1
    ("/static/" ++ ("0" ++ ".png")) rfl

/-- C1: each fan-out request (two-prompt choices endpoint, three-prompt
legacy endpoint) either returns all image results, in submission order
(choice A's URL first, then choice B's; scene, then option A, then option
B), or fails as a whole with an HTTP error; the `Except` result can never
hold a partial subset. -/
theorem C1_dispatch_all_or_nothing (env : Env) (st : St)
    (req2 : GenerateChoicesReq) (req3 : SceneReq) :
    ((∃ resp, (api_generate_choices env st req2).2 = .ok resp ∧
        ∃ ua ub,
          (make_image env st req2.choice_a_prompt).2 = .ok ua ∧
          (make_image env (make_image env st req2.choice_a_prompt).1
              req2.choice_b_prompt).2 = .ok ub ∧
          resp.choices.map Choice.url = [ua, ub]) ∨
      (∃ e, (api_generate_choices env st req2).2 = .error e)) ∧
    ((∃ resp, (generate_scene env st req3).2 = .ok resp ∧
        ∃ us ua ub,
          (make_image env st req3.scene_prompt).2 = .ok us ∧
          (make_image env (make_image env st req3.scene_prompt).1
              req3.option_a).2 = .ok ua ∧
          (make_image env
              (make_image env (make_image env st req3.scene_prompt).1
                req3.option_a).1 req3.option_b).2 = .ok ub ∧
          resp.sceneURL = us ∧
          resp.options.map LegacyOption.url = [ua, ub]) ∨
      (∃ e, (generate_scene env st req3).2 = .error e)) := by
  constructor
  · rcases hma : make_image env st req2.choice_a_prompt with ⟨st1, ra⟩
    rcases hmb : make_image env st1 req2.choice_b_prompt with ⟨st2, rb⟩
    cases ra with
    | error e =>
      right
      exact ⟨⟨500, e.str⟩, by simp [api_generate_choices, gather2, hma, hmb]⟩
    | ok ua =>
      cases rb with
      | error e =>
        right
        exact ⟨⟨500, e.str⟩, by simp [api_generate_choices, gather2, hma, hmb]⟩
      | ok ub =>
        left
        exact ⟨⟨"choices",
          [⟨"A", req2.choice_a_text, ua, req2.choice_a_prompt⟩,
           ⟨"B", req2.choice_b_text, ub, req2.choice_b_prompt⟩]⟩,
          by simp [api_generate_choices, gather2, hma, hmb],
          ua, ub, rfl, rfl, by simp⟩
  · rcases hms : make_image env st req3.scene_prompt with ⟨st1, rs⟩
    rcases hma : make_image env st1 req3.option_a with ⟨st2, ra⟩
    rcases hmb : make_image env st2 req3.option_b with ⟨st3, rb⟩
    cases rs with
    | error e =>
      right
      exact ⟨⟨500, e.str⟩, by simp [generate_scene, gather3, hms, hma, hmb]⟩
    | ok us =>
      cases ra with
      | error e =>
        right
        exact ⟨⟨500, e.str⟩, by simp [generate_scene, gather3, hms, hma, hmb]⟩
      | ok ua =>
        cases rb with
        | error e =>
          right
          exact ⟨⟨500, e.str⟩,
            by simp [generate_scene, gather3, hms, hma, hmb]⟩
        | ok ub =>
          left
          exact ⟨⟨us, [⟨"A", ua, req3.option_a⟩, ⟨"B", ub, req3.option_b⟩]⟩,
            by simp [generate_scene, gather3, hms, hma, hmb],
            us, ua, ub, rfl, rfl, rfl, rfl, by simp⟩


/-- When the two-prompt fan-out fails, the escaping error is a wrapped
image-generation error. -/
theorem gather2_error_shape (env : Env) (st : St) (pa pb : String)
    (e : HttpError) (h : (gather2 env st pa pb).2 = .error e) :
    e.status = 500 ∧ ∃ c, e.detail = "Failed to generate image: " ++ c := by
  rcases hma : make_image env st pa with ⟨st1, ra⟩
  rcases hmb : make_image env st1 pb with ⟨st2, rb⟩
  cases ra with
  | error e0 =>
    simp [gather2, hma, hmb] at h
    rw [← h]
    exact make_image_error_shape env st pa e0 (by rw [hma])
  | ok ua =>
    cases rb with
    | error e0 =>
      simp [gather2, hma, hmb] at h
      rw [← h]
      exact make_image_error_shape env st1 pb e0 (by rw [hmb])
    | ok ub => simp [gather2, hma, hmb] at h

/-- When the three-prompt fan-out fails, the escaping error is a wrapped
image-generation error. -/
theorem gather3_error_shape (env : Env) (st : St) (p1 p2 p3 : String)
    (e : HttpError) (h : (gather3 env st p1 p2 p3).2 = .error e) :
    e.status = 500 ∧ ∃ c, e.detail = "Failed to generate image: " ++ c := by
  rcases hm1 : make_image env st p1 with ⟨st1, r1⟩
  rcases hm2 : make_image env st1 p2 with ⟨st2, r2⟩
  rcases hm3 : make_image env st2 p3 with ⟨st3, r3⟩
  cases r1 with
  | error e0 =>
    simp [gather3, hm1, hm2, hm3] at h
    rw [← h]
    exact make_image_error_shape env st p1 e0 (by rw [hm1])
  | ok u1 =>
    cases r2 with
    | error e0 =>
      simp [gather3, hm1, hm2, hm3] at h
      rw [← h]
      exact make_image_error_shape env st1 p2 e0 (by rw [hm2])
    | ok u2 =>
      cases r3 with
      | error e0 =>
        simp [gather3, hm1, hm2, hm3] at h
        rw [← h]
        exact make_image_error_shape env st2 p3 e0 (by rw [hm3])
      | ok u3 => simp [gather3, hm1, hm2, hm3] at h

/-- When a wrapped image-generation error is rendered by `str(e)` and
re-raised by a direct endpoint, the resulting detail is
`500: Failed to generate image: cause`. -/
theorem wrapped_str_shape (e : HttpError) (hs : e.status = 500)
    (hd : ∃ c, e.detail = "Failed to generate image: " ++ c) :
    ∃ c, e.str = "500: Failed to generate image: " ++ c := by
  obtain ⟨c, hc⟩ := hd
  refine ⟨c, ?_⟩
  simp only [HttpError.str, hs, hc]
  rw [← String.append_assoc]
  congr 1

/-- C9: when image generation fails, each direct endpoint raises an HTTP
500 error whose detail describes the failure
(`500: Failed to generate image: cause`), while the webhook endpoints
return HTTP 200 on every input whatsoever. -/
theorem C9_direct_http_error_webhook_always_200 (env : Env) (st : St)
    (r1 : GenerateSceneReq) (r2 : GenerateChoicesReq) (r3 : SceneReq) :
    (∀ e, (api_generate_scene env st r1).2 = .error e →
      e.status = 500 ∧
      ∃ c, e.detail = "500: Failed to generate image: " ++ c) ∧
    (∀ e, (api_generate_choices env st r2).2 = .error e →
      e.status = 500 ∧
      ∃ c, e.detail = "500: Failed to generate image: " ++ c) ∧
    (∀ e, (generate_scene env st r3).2 = .error e →
      e.status = 500 ∧
      ∃ c, e.detail = "500: Failed to generate image: " ++ c) ∧
    (∀ body, (vapi_generate_scene env st body).2.status = 200 ∧
      (vapi_generate_choices env st body).2.status = 200) := by
  refine ⟨?_, ?_, ?_, ?_⟩
  · intro e h
    rcases hmi : make_image env st r1.scene_prompt with ⟨st1, r⟩
    cases r with
    | error e0 =>
      have hsh := make_image_error_shape env st r1.scene_prompt e0
        (by rw [hmi])
      simp [api_generate_scene, hmi] at h
      rw [← h]
      exact ⟨rfl, wrapped_str_shape e0 hsh.1 hsh.2⟩
    | ok url => simp [api_generate_scene, hmi] at h
  · intro e h
    rcases hg : gather2 env st r2.choice_a_prompt r2.choice_b_prompt
      with ⟨st1, r⟩
    cases r with
    | error e0 =>
      have hsh := gather2_error_shape env st r2.choice_a_prompt
        r2.choice_b_prompt e0 (by rw [hg])
      simp [api_generate_choices, hg] at h
      rw [← h]
      exact ⟨rfl, wrapped_str_shape e0 hsh.1 hsh.2⟩
    | ok p =>
      rcases p with ⟨ua, ub⟩
      simp [api_generate_choices, hg] at h
  · intro e h
    rcases hg : gather3 env st r3.scene_prompt r3.option_a r3.option_b
      with ⟨st1, r⟩
    cases r with
    | error e0 =>
      have hsh := gather3_error_shape env st r3.scene_prompt r3.option_a
        r3.option_b e0 (by rw [hg])
      simp [generate_scene, hg] at h
      rw [← h]
      exact ⟨rfl, wrapped_str_shape e0 hsh.1 hsh.2⟩
    | ok p =>
      rcases p with ⟨us, ua, ub⟩
      simp [generate_scene, hg] at h
  · intro body
    cases body with
    | malformed msg => exact ⟨rfl, rfl⟩
    | invalid msg => exact ⟨rfl, rfl⟩
    | parsed req =>
      rcases req with ⟨om⟩
      cases om with
      | none => exact ⟨rfl, rfl⟩
      | some m =>
        rcases m with ⟨mt, otl⟩
        cases otl with
        | none => exact ⟨rfl, rfl⟩
        | some calls =>
          cases calls with
          | nil => exact ⟨rfl, rfl⟩
          | cons tc rest =>
            constructor
            · rcases hl : vapiSceneLoop env st (tc :: rest) with ⟨st1, r⟩
              cases r with
              | ok results => simp [vapi_generate_scene, hl]
              | error e => simp [vapi_generate_scene, hl]
            · rcases hl : vapiChoicesLoop env st (tc :: rest) with ⟨st1, r⟩
              cases r with
              | ok results => simp [vapi_generate_choices, hl]
              | error e => simp [vapi_generate_choices, hl]

/-- C9 witness: the theorem applied to the always-failing environment at
concrete requests. -/
theorem C9_direct_http_error_webhook_always_200_witness :
    ((⟨500, "500: Failed to generate image: boom"⟩ : HttpError).status = 500 ∧
      ∃ c, (⟨500, "500: Failed to generate image: boom"⟩ : HttpError).detail
        = "500: Failed to generate image: " ++ c) ∧
    (vapi_generate_scene envBoom st0 (.malformed "oops")).2.status = 200 :=
  ⟨(C9_direct_http_error_webhook_always_200 envBoom st0 ⟨"p"⟩ ⟨"a", "b", "ta", "tb"⟩
      ⟨"s", "oa", "ob"⟩).1 ⟨500, "500: Failed to generate image: boom"⟩ rfl,
   ((C9_direct_http_error_webhook_always_200 envBoom st0 ⟨"p"⟩ ⟨"a", "b", "ta", "tb"⟩
      ⟨"s", "oa", "ob"⟩).2.2.2 (.malformed "oops")).1⟩

/-- C2: a webhook body that is malformed JSON, fails validation, or lacks
a message with a non-empty tool-call list gets HTTP 200 and exactly one
error result whose id is the sentinel `error`, on both webhook endpoints;
no such request is answered with an HTTP error status. -/
theorem C2_bad_envelope_single_sentinel (env : Env) (st : St) :
    (∀ m,
      (vapi_generate_scene env st (.malformed m)).2
        = ⟨200, ⟨[⟨"error", "Request parsing failed: " ++ m⟩]⟩⟩ ∧
      (vapi_generate_choices env st (.malformed m)).2
        = ⟨200, ⟨[⟨"error", "Request parsing failed: " ++ m⟩]⟩⟩) ∧
    (∀ m,
      (vapi_generate_scene env st (.invalid m)).2
        = ⟨200, ⟨[⟨"error", "Request validation failed: " ++ m⟩]⟩⟩ ∧
      (vapi_generate_choices env st (.invalid m)).2
        = ⟨200, ⟨[⟨"error", "Request validation failed: " ++ m⟩]⟩⟩) ∧
    (∀ r : VapiRequest,
      (r.message = none ∨
        ∃ mm, r.message = some mm ∧
          (mm.toolCallList = none ∨ mm.toolCallList = some [])) →
      (vapi_generate_scene env st (.parsed r)).2
        = ⟨200, ⟨[⟨"error", "No tool calls found in request"⟩]⟩⟩ ∧
      (vapi_generate_choices env st (.parsed r)).2
        = ⟨200, ⟨[⟨"error", "No tool calls found in request"⟩]⟩⟩) := by
  refine ⟨fun m => ⟨rfl, rfl⟩, fun m => ⟨rfl, rfl⟩, ?_⟩
  intro r h
  rcases r with ⟨om⟩
  cases om with
  | none => exact ⟨rfl, rfl⟩
  | some mm0 =>
    simp only at h
    rcases h with h | ⟨mm, hmm, hl⟩
    · exact Option.noConfusion h
    · have hmm0 : mm0 = mm := Option.some.inj hmm
      subst hmm0
      rcases mm0 with ⟨mt, otl⟩
      simp only at hl
      rcases hl with hl | hl
      · subst hl
        exact ⟨rfl, rfl⟩
      · subst hl
        exact ⟨rfl, rfl⟩

/-- C2 witness: concrete bad envelopes through the theorem. -/
theorem C2_bad_envelope_single_sentinel_witness :
    ((vapi_generate_scene envOk st0 (.malformed "bad json")).2
        = ⟨200, ⟨[⟨"error", "Request parsing failed: bad json"⟩]⟩⟩ ∧
      (vapi_generate_choices envOk st0 (.malformed "bad json")).2
        = ⟨200, ⟨[⟨"error", "Request parsing failed: bad json"⟩]⟩⟩) ∧
    ((vapi_generate_scene envOk st0 (.parsed ⟨some ⟨none, some []⟩⟩)).2
        = ⟨200, ⟨[⟨"error", "No tool calls found in request"⟩]⟩⟩ ∧
      (vapi_generate_choices envOk st0 (.parsed ⟨some ⟨none, some []⟩⟩)).2
        = ⟨200, ⟨[⟨"error", "No tool calls found in request"⟩]⟩⟩) := by
  constructor
  · have := (C2_bad_envelope_single_sentinel envOk st0).1 "bad json"
    simpa using this
  · exact (C2_bad_envelope_single_sentinel envOk st0).2.2 ⟨some ⟨none, some []⟩⟩
      (Or.inr ⟨⟨none, some []⟩, rfl, Or.inr rfl⟩)

/-- Unfolding `wellFormedIds` over a surviving entry. -/
theorem wellFormedIds_cons_valid (tc : VapiToolCall) (id : String)
    (h : tcWellFormed tc = true) (hid : tc.id = some id)
    (rest : List VapiToolCall) :
    wellFormedIds (tc :: rest) = id :: wellFormedIds rest := by
  simp [wellFormedIds, List.filterMap_cons, h, hid]

/-- Unfolding `wellFormedIds` over a skipped entry. -/
theorem wellFormedIds_cons_invalid (tc : VapiToolCall)
    (h : tcWellFormed tc = false) (rest : List VapiToolCall) :
    wellFormedIds (tc :: rest) = wellFormedIds rest := by
  simp [wellFormedIds, List.filterMap_cons, h]

/-- When the scene loop completes without an exception, the result ids are
exactly the ids of the surviving (well-formed) entries, in request
order — one result per processed invocation. -/
theorem vapiSceneLoop_ok_ids (env : Env) (calls : List VapiToolCall) :
    ∀ st results, (vapiSceneLoop env st calls).2 = .ok results →
      results.map VapiResult.toolCallId = wellFormedIds calls := by
  induction calls with
  | nil =>
    intro st results h
    simp [vapiSceneLoop] at h
    simp [← h, wellFormedIds]
  | cons tc rest ih =>
    intro st results h
    rcases tc with ⟨oid, oty, ofn⟩
    cases ofn with
    | none =>
      simp [vapiSceneLoop] at h
      rw [wellFormedIds_cons_invalid _ (by simp [tcWellFormed])]
      exact ih st results h
    | some f =>
      rcases f with ⟨onm, oargs⟩
      cases onm with
      | none =>
        simp [vapiSceneLoop] at h
        rw [wellFormedIds_cons_invalid _ (by simp [tcWellFormed])]
        exact ih st results h
      | some nm =>
        by_cases hnm : nm = ""
        · subst hnm
          simp [vapiSceneLoop] at h
          rw [wellFormedIds_cons_invalid _
            (by cases oid <;> simp [tcWellFormed])]
          exact ih st results h
        · cases oid with
          | none =>
            simp [vapiSceneLoop, hnm] at h
            rw [wellFormedIds_cons_invalid _ (by simp [tcWellFormed])]
            exact ih st results h
          | some id =>
            by_cases hid : id = ""
            · subst hid
              simp [vapiSceneLoop, hnm] at h
              rw [wellFormedIds_cons_invalid _ (by simp [tcWellFormed, hnm])]
              exact ih st results h
            · rw [wellFormedIds_cons_valid _ id
                (by simp [tcWellFormed, hnm, hid]) rfl]
              by_cases hgen : nm = "generate_scene"
              · subst hgen
                rcases hmi : make_image env st
                  (getArg (argsOrEmpty oargs) "scene_prompt"
                    "A mysterious adventure scene...") with ⟨st1, r⟩
                cases r with
                | error e => simp [vapiSceneLoop, hid, hmi] at h
                | ok url =>
                  rcases hrec : vapiSceneLoop env st1 rest with ⟨st2, rs⟩
                  cases rs with
                  | error e => simp [vapiSceneLoop, hid, hmi, hrec] at h
                  | ok l =>
                    simp [vapiSceneLoop, hid, hmi, hrec] at h
                    rw [← h]
                    simp only [List.map_cons]
                    rw [ih st1 l (by rw [hrec])]
              · rcases hrec : vapiSceneLoop env st rest with ⟨st2, rs⟩
                cases rs with
                | error e => simp [vapiSceneLoop, hnm, hid, hgen, hrec] at h
                | ok l =>
                  simp [vapiSceneLoop, hnm, hid, hgen, hrec] at h
                  rw [← h]
                  simp only [List.map_cons]
                  rw [ih st l (by rw [hrec])]

/-- When the choices loop completes without an exception, the result ids
are exactly the ids of the surviving (well-formed) entries, in request
order — one result per processed invocation. -/
theorem vapiChoicesLoop_ok_ids (env : Env) (calls : List VapiToolCall) :
    ∀ st results, (vapiChoicesLoop env st calls).2 = .ok results →
      results.map VapiResult.toolCallId = wellFormedIds calls := by
  induction calls with
  | nil =>
    intro st results h
    simp [vapiChoicesLoop] at h
    simp [← h, wellFormedIds]
  | cons tc rest ih =>
    intro st results h
    rcases tc with ⟨oid, oty, ofn⟩
    cases ofn with
    | none =>
      simp [vapiChoicesLoop] at h
      rw [wellFormedIds_cons_invalid _ (by simp [tcWellFormed])]
      exact ih st results h
    | some f =>
      rcases f with ⟨onm, oargs⟩
      cases onm with
      | none =>
        simp [vapiChoicesLoop] at h
        rw [wellFormedIds_cons_invalid _ (by simp [tcWellFormed])]
        exact ih st results h
      | some nm =>
        by_cases hnm : nm = ""
        · subst hnm
          simp [vapiChoicesLoop] at h
          rw [wellFormedIds_cons_invalid _
            (by cases oid <;> simp [tcWellFormed])]
          exact ih st results h
        · cases oid with
          | none =>
            simp [vapiChoicesLoop, hnm] at h
            rw [wellFormedIds_cons_invalid _ (by simp [tcWellFormed])]
            exact ih st results h
          | some id =>
            by_cases hid : id = ""
            · subst hid
              simp [vapiChoicesLoop, hnm] at h
              rw [wellFormedIds_cons_invalid _ (by simp [tcWellFormed, hnm])]
              exact ih st results h
            · rw [wellFormedIds_cons_valid _ id
                (by simp [tcWellFormed, hnm, hid]) rfl]
              by_cases hgen : nm = "generate_choices"
              · subst hgen
                rcases hmi : gather2 env st
                  (getArg (argsOrEmpty oargs) "choice_a_prompt" "Option A")
                  (getArg (argsOrEmpty oargs) "choice_b_prompt" "Option B")
                  with ⟨st1, r⟩
                cases r with
                | error e => simp [vapiChoicesLoop, hid, hmi] at h
                | ok p =>
                  rcases p with ⟨ua, ub⟩
                  rcases hrec : vapiChoicesLoop env st1 rest with ⟨st2, rs⟩
                  cases rs with
                  | error e => simp [vapiChoicesLoop, hid, hmi, hrec] at h
                  | ok l =>
                    simp [vapiChoicesLoop, hid, hmi, hrec] at h
                    rw [← h]
                    simp only [List.map_cons]
                    rw [ih st1 l (by rw [hrec])]
              · rcases hrec : vapiChoicesLoop env st rest with ⟨st2, rs⟩
                cases rs with
                | error e => simp [vapiChoicesLoop, hnm, hid, hgen, hrec] at h
                | ok l =>
                  simp [vapiChoicesLoop, hnm, hid, hgen, hrec] at h
                  rw [← h]
                  simp only [List.map_cons]
                  rw [ih st l (by rw [hrec])]

/-- A well-formed `generate_scene` tool-call entry with an explicit
`scene_prompt` argument. -/
def tcScene (id p : String) : VapiToolCall :=
  ⟨some id, none, some ⟨some "generate_scene", some [("scene_prompt", p)]⟩⟩

/-- C3 counterexample: a webhook request with two well-formed
`generate_scene` entries where the first is processed successfully (its
image file is written) and the second raises; the response is the single
sentinel error result, so the first invocation's result is dropped. -/
theorem C3_counterexample_dropped_result :
    tcWellFormed (tcScene "id1" "p1") = true ∧
    (vapi_generate_scene envP1 st0
      (.parsed ⟨some ⟨none, some [tcScene "id1" "p1", tcScene "id2" "p2"]⟩⟩)).2
      = ⟨200, ⟨[⟨"error",
          "Server error: 500: Failed to generate image: boom"⟩]⟩⟩ ∧
    (vapi_generate_scene envP1 st0
      (.parsed ⟨some ⟨none, some [tcScene "id1" "p1", tcScene "id2" "p2"]⟩⟩)).1.files
      = ["u.png"] := by
  exact ⟨rfl, rfl, rfl⟩

/-- C3 (amended): when no entry raises, the webhook response has exactly
one result per well-formed invocation, with the surviving entries' ids in
request order; when any entry raises, the whole response collapses to the
single sentinel error result (earlier results are discarded). -/
theorem C3_one_result_per_invocation_unless_exception (env : Env) (st : St)
    (tc : VapiToolCall) (rest : List VapiToolCall) :
    (∀ results, (vapiSceneLoop env st (tc :: rest)).2 = .ok results →
      (vapi_generate_scene env st
        (.parsed ⟨some ⟨none, some (tc :: rest)⟩⟩)).2.body.results = results ∧
      results.map VapiResult.toolCallId = wellFormedIds (tc :: rest)) ∧
    (∀ e, (vapiSceneLoop env st (tc :: rest)).2 = .error e →
      (vapi_generate_scene env st
        (.parsed ⟨some ⟨none, some (tc :: rest)⟩⟩)).2.body.results
        = [⟨"error", "Server error: " ++ e.str⟩]) ∧
    (∀ results, (vapiChoicesLoop env st (tc :: rest)).2 = .ok results →
      (vapi_generate_choices env st
        (.parsed ⟨some ⟨none, some (tc :: rest)⟩⟩)).2.body.results = results ∧
      results.map VapiResult.toolCallId = wellFormedIds (tc :: rest)) ∧
    (∀ e, (vapiChoicesLoop env st (tc :: rest)).2 = .error e →
      (vapi_generate_choices env st
        (.parsed ⟨some ⟨none, some (tc :: rest)⟩⟩)).2.body.results
        = [⟨"error", "Server error: " ++ e.str⟩]) := by
  refine ⟨?_, ?_, ?_, ?_⟩
  · intro results h
    have hids := vapiSceneLoop_ok_ids env (tc :: rest) st results h
    rcases hl : vapiSceneLoop env st (tc :: rest) with ⟨st1, r⟩
    rw [hl] at h
    simp only at h
    subst h
    exact ⟨by simp [vapi_generate_scene, hl], hids⟩
  · intro e h
    rcases hl : vapiSceneLoop env st (tc :: rest) with ⟨st1, r⟩
    rw [hl] at h
    simp only at h
    subst h
    simp [vapi_generate_scene, hl]
  · intro results h
    have hids := vapiChoicesLoop_ok_ids env (tc :: rest) st results h
    rcases hl : vapiChoicesLoop env st (tc :: rest) with ⟨st1, r⟩
    rw [hl] at h
    simp only at h
    subst h
    exact ⟨by simp [vapi_generate_choices, hl], hids⟩
  · intro e h
    rcases hl : vapiChoicesLoop env st (tc :: rest) with ⟨st1, r⟩
    rw [hl] at h
    simp only at h
    subst h
    simp [vapi_generate_choices, hl]

/-- C3 witness: a successful unknown-tool request keeps its one result,
and a raising request collapses to the sentinel. -/
theorem C3_one_result_per_invocation_unless_exception_witness :
    ((vapi_generate_scene envOk st0
        (.parsed ⟨some ⟨none,
          some [⟨some "id9", none, some ⟨some "other_tool", none⟩⟩]⟩⟩)).2.body.results
      = [⟨"id9", "Unknown tool: other_tool"⟩] ∧
     ([⟨"id9", "Unknown tool: other_tool"⟩] : List VapiResult).map
        VapiResult.toolCallId
      = wellFormedIds [⟨some "id9", none, some ⟨some "other_tool", none⟩⟩]) ∧
    (vapi_generate_scene envBoom st0
        (.parsed ⟨some ⟨none, some [tcScene "idA" "p"]⟩⟩)).2.body.results
      = [⟨"error", "Server error: 500: Failed to generate image: boom"⟩] :=
  ⟨(C3_one_result_per_invocation_unless_exception envOk st0
      ⟨some "id9", none, some ⟨some "other_tool", none⟩⟩ []).1
      [⟨"id9", "Unknown tool: other_tool"⟩] rfl,
   (C3_one_result_per_invocation_unless_exception envBoom st0
      (tcScene "idA" "p") []).2.1
      ⟨500, "Failed to generate image: boom"⟩ rfl⟩

/-- When every `make_image` call succeeds, the two-prompt fan-out
succeeds. -/
theorem gather2_isOk (env : Env)
    (hok : ∀ s p, ((make_image env s p).2).isOk = true)
    (st : St) (pa pb : String) :
    ((gather2 env st pa pb).2).isOk = true := by
  rcases hma : make_image env st pa with ⟨st1, ra⟩
  have ha := hok st pa
  rw [hma] at ha
  rcases hmb : make_image env st1 pb with ⟨st2, rb⟩
  have hb := hok st1 pb
  rw [hmb] at hb
  cases ra with
  | error e => simp [Except.isOk, Except.toBool] at ha
  | ok ua =>
    cases rb with
    | error e => simp [Except.isOk, Except.toBool] at hb
    | ok ub => simp [gather2, hma, hmb, Except.isOk, Except.toBool]

/-- When every `make_image` call succeeds, the scene loop never raises. -/
theorem vapiSceneLoop_isOk (env : Env)
    (hok : ∀ s p, ((make_image env s p).2).isOk = true)
    (calls : List VapiToolCall) :
    ∀ st, ((vapiSceneLoop env st calls).2).isOk = true := by
  induction calls with
  | nil => intro st; simp [vapiSceneLoop, Except.isOk, Except.toBool]
  | cons tc rest ih =>
    intro st
    rcases tc with ⟨oid, oty, ofn⟩
    cases ofn with
    | none => simpa [vapiSceneLoop] using ih st
    | some f =>
      rcases f with ⟨onm, oargs⟩
      cases onm with
      | none => simpa [vapiSceneLoop] using ih st
      | some nm =>
        by_cases hnm : nm = ""
        · subst hnm; simpa [vapiSceneLoop] using ih st
        · cases oid with
          | none => simpa [vapiSceneLoop, hnm] using ih st
          | some id =>
            by_cases hid : id = ""
            · subst hid; simpa [vapiSceneLoop, hnm] using ih st
            · by_cases hgen : nm = "generate_scene"
              · subst hgen
                rcases hmi : make_image env st
                  (getArg (argsOrEmpty oargs) "scene_prompt"
                    "A mysterious adventure scene...") with ⟨st1, r⟩
                have hki := hok st
                  (getArg (argsOrEmpty oargs) "scene_prompt"
                    "A mysterious adventure scene...")
                rw [hmi] at hki
                cases r with
                | error e => simp [Except.isOk, Except.toBool] at hki
                | ok url =>
                  rcases hrec : vapiSceneLoop env st1 rest with ⟨st2, rs⟩
                  have hr := ih st1
                  rw [hrec] at hr
                  cases rs with
                  | error e => simp [Except.isOk, Except.toBool] at hr
                  | ok l =>
                    simp [vapiSceneLoop, hid, hmi, hrec, Except.isOk,
                      Except.toBool]
              · rcases hrec : vapiSceneLoop env st rest with ⟨st2, rs⟩
                have hr := ih st
                rw [hrec] at hr
                cases rs with
                | error e => simp [Except.isOk, Except.toBool] at hr
                | ok l =>
                  simp [vapiSceneLoop, hnm, hid, hgen, hrec, Except.isOk,
                    Except.toBool]

/-- When every `make_image` call succeeds, the choices loop never
raises. -/
theorem vapiChoicesLoop_isOk (env : Env)
    (hok : ∀ s p, ((make_image env s p).2).isOk = true)
    (calls : List VapiToolCall) :
    ∀ st, ((vapiChoicesLoop env st calls).2).isOk = true := by
  induction calls with
  | nil => intro st; simp [vapiChoicesLoop, Except.isOk, Except.toBool]
  | cons tc rest ih =>
    intro st
    rcases tc with ⟨oid, oty, ofn⟩
    cases ofn with
    | none => simpa [vapiChoicesLoop] using ih st
    | some f =>
      rcases f with ⟨onm, oargs⟩
      cases onm with
      | none => simpa [vapiChoicesLoop] using ih st
      | some nm =>
        by_cases hnm : nm = ""
        · subst hnm; simpa [vapiChoicesLoop] using ih st
        · cases oid with
          | none => simpa [vapiChoicesLoop, hnm] using ih st
          | some id =>
            by_cases hid : id = ""
            · subst hid; simpa [vapiChoicesLoop, hnm] using ih st
            · by_cases hgen : nm = "generate_choices"
              · subst hgen
                rcases hmi : gather2 env st
                  (getArg (argsOrEmpty oargs) "choice_a_prompt" "Option A")
                  (getArg (argsOrEmpty oargs) "choice_b_prompt" "Option B")
                  with ⟨st1, r⟩
                have hki := gather2_isOk env hok st
                  (getArg (argsOrEmpty oargs) "choice_a_prompt" "Option A")
                  (getArg (argsOrEmpty oargs) "choice_b_prompt" "Option B")
                rw [hmi] at hki
                cases r with
                | error e => simp [Except.isOk, Except.toBool] at hki
                | ok p =>
                  rcases p with ⟨ua, ub⟩
                  rcases hrec : vapiChoicesLoop env st1 rest with ⟨st2, rs⟩
                  have hr := ih st1
                  rw [hrec] at hr
                  cases rs with
                  | error e => simp [Except.isOk, Except.toBool] at hr
                  | ok l =>
                    simp [vapiChoicesLoop, hid, hmi, hrec, Except.isOk,
                      Except.toBool]
              · rcases hrec : vapiChoicesLoop env st rest with ⟨st2, rs⟩
                have hr := ih st
                rw [hrec] at hr
                cases rs with
                | error e => simp [Except.isOk, Except.toBool] at hr
                | ok l =>
                  simp [vapiChoicesLoop, hnm, hid, hgen, hrec, Except.isOk,
                    Except.toBool]

/-- C4: a webhook request holding one well-formed `generate_scene` entry
and one well-formed `generate_choices` entry gets exactly two results,
whose ids match the two input ids one-to-one (here in request order), on
either webhook endpoint — the recognized name is handled, the other is
answered as an unknown tool — provided image generation succeeds. -/
theorem C4_two_tool_request_ids_matched (env : Env) (st : St)
    (id1 id2 : String) (t1 t2 : Option String)
    (a1 a2 : Option (List (String × String)))
    (calls : List VapiToolCall)
    (hcalls : calls = [⟨some id1, t1, some ⟨some "generate_scene", a1⟩⟩,
                       ⟨some id2, t2, some ⟨some "generate_choices", a2⟩⟩])
    (hok : ∀ s p, ((make_image env s p).2).isOk = true)
    (h1 : id1 ≠ "") (h2 : id2 ≠ "") :
    ((vapi_generate_scene env st
        (.parsed ⟨some ⟨none, some calls⟩⟩)).2.body.results.map
        VapiResult.toolCallId = [id1, id2]) ∧
    ((vapi_generate_choices env st
        (.parsed ⟨some ⟨none, some calls⟩⟩)).2.body.results.map
        VapiResult.toolCallId = [id1, id2]) := by
  have hwf : wellFormedIds calls = [id1, id2] := by
    subst hcalls
    simp [wellFormedIds, tcWellFormed, h1, h2]
  subst hcalls
  constructor
  · have hisok := vapiSceneLoop_isOk env hok
      [⟨some id1, t1, some ⟨some "generate_scene", a1⟩⟩,
       ⟨some id2, t2, some ⟨some "generate_choices", a2⟩⟩] st
    rcases hl : vapiSceneLoop env st
      [⟨some id1, t1, some ⟨some "generate_scene", a1⟩⟩,
       ⟨some id2, t2, some ⟨some "generate_choices", a2⟩⟩] with ⟨st1, r⟩
    rw [hl] at hisok
    cases r with
    | error e => simp [Except.isOk, Except.toBool] at hisok
    | ok results =>
      have hids := vapiSceneLoop_ok_ids env _ st results (by rw [hl])
      simp only [vapi_generate_scene, hl]
      rw [hids, hwf]
  · have hisok := vapiChoicesLoop_isOk env hok
      [⟨some id1, t1, some ⟨some "generate_scene", a1⟩⟩,
       ⟨some id2, t2, some ⟨some "generate_choices", a2⟩⟩] st
    rcases hl : vapiChoicesLoop env st
      [⟨some id1, t1, some ⟨some "generate_scene", a1⟩⟩,
       ⟨some id2, t2, some ⟨some "generate_choices", a2⟩⟩] with ⟨st1, r⟩
    rw [hl] at hisok
    cases r with
    | error e => simp [Except.isOk, Except.toBool] at hisok
    | ok results =>
      have hids := vapiChoicesLoop_ok_ids env _ st results (by rw [hl])
      simp only [vapi_generate_choices, hl]
      rw [hids, hwf]

/-- C4 witness: the theorem applied to the all-succeeding environment and
concrete ids. -/
theorem C4_two_tool_request_ids_matched_witness :
    ((vapi_generate_scene envOk st0
        (.parsed ⟨some ⟨none,
          some [⟨some "id1", none, some ⟨some "generate_scene", none⟩⟩,
                ⟨some "id2", none, some ⟨some "generate_choices", none⟩⟩]⟩⟩)).2.body.results.map
        VapiResult.toolCallId = ["id1", "id2"]) ∧
    ((vapi_generate_choices envOk st0
        (.parsed ⟨some ⟨none,
          some [⟨some "id1", none, some ⟨some "generate_scene", none⟩⟩,
                ⟨some "id2", none, some ⟨some "generate_choices", none⟩⟩]⟩⟩)).2.body.results.map
        VapiResult.toolCallId = ["id1", "id2"]) :=
  C4_two_tool_request_ids_matched envOk st0 "id1" "id2" none none none none
    _ rfl (fun s p => rfl) (by decide) (by decide)

/-- Dropping a malformed entry anywhere in the list leaves the scene loop
unchanged: no state change and no result for the entry. -/
theorem vapiSceneLoop_skip (env : Env) (tc : VapiToolCall)
    (h : tcWellFormed tc = false) :
    ∀ (pre : List VapiToolCall) (post : List VapiToolCall) (st : St),
      vapiSceneLoop env st (pre ++ tc :: post)
        = vapiSceneLoop env st (pre ++ post) := by
  intro pre
  induction pre with
  | nil =>
    intro post st
    rcases tc with ⟨oid, oty, ofn⟩
    cases ofn with
    | none => simp [vapiSceneLoop]
    | some f =>
      rcases f with ⟨onm, oargs⟩
      cases onm with
      | none => simp [vapiSceneLoop]
      | some nm =>
        by_cases hnm : nm = ""
        · subst hnm; simp [vapiSceneLoop]
        · cases oid with
          | none => simp [vapiSceneLoop, hnm]
          | some id =>
            by_cases hid : id = ""
            · subst hid; simp [vapiSceneLoop, hnm]
            · simp [tcWellFormed, hnm, hid] at h
  | cons a pre ih =>
    intro post st
    rcases a with ⟨oid, oty, ofn⟩
    cases ofn with
    | none => simpa [vapiSceneLoop] using ih post st
    | some f =>
      rcases f with ⟨onm, oargs⟩
      cases onm with
      | none => simpa [vapiSceneLoop] using ih post st
      | some nm =>
        by_cases hnm : nm = ""
        · subst hnm; simpa [vapiSceneLoop] using ih post st
        · cases oid with
          | none => simpa [vapiSceneLoop, hnm] using ih post st
          | some id =>
            by_cases hid : id = ""
            · subst hid; simpa [vapiSceneLoop, hnm] using ih post st
            · by_cases hgen : nm = "generate_scene"
              · subst hgen
                rcases hmi : make_image env st
                  (getArg (argsOrEmpty oargs) "scene_prompt"
                    "A mysterious adventure scene...") with ⟨st1, r⟩
                cases r with
                | error e => simp [vapiSceneLoop, hid, hmi]
                | ok url =>
                  simp [vapiSceneLoop, hid, hmi]
                  rw [ih post st1]
                  exact ⟨rfl, rfl⟩
              · simp [vapiSceneLoop, hnm, hid, hgen]
                rw [ih post st]
                exact ⟨rfl, rfl⟩

/-- Dropping a malformed entry anywhere in the list leaves the choices
loop unchanged: no state change and no result for the entry. -/
theorem vapiChoicesLoop_skip (env : Env) (tc : VapiToolCall)
    (h : tcWellFormed tc = false) :
    ∀ (pre : List VapiToolCall) (post : List VapiToolCall) (st : St),
      vapiChoicesLoop env st (pre ++ tc :: post)
        = vapiChoicesLoop env st (pre ++ post) := by
  intro pre
  induction pre with
  | nil =>
    intro post st
    rcases tc with ⟨oid, oty, ofn⟩
    cases ofn with
    | none => simp [vapiChoicesLoop]
    | some f =>
      rcases f with ⟨onm, oargs⟩
      cases onm with
      | none => simp [vapiChoicesLoop]
      | some nm =>
        by_cases hnm : nm = ""
        · subst hnm; simp [vapiChoicesLoop]
        · cases oid with
          | none => simp [vapiChoicesLoop, hnm]
          | some id =>
            by_cases hid : id = ""
            · subst hid; simp [vapiChoicesLoop, hnm]
            · simp [tcWellFormed, hnm, hid] at h
  | cons a pre ih =>
    intro post st
    rcases a with ⟨oid, oty, ofn⟩
    cases ofn with
    | none => simpa [vapiChoicesLoop] using ih post st
    | some f =>
      rcases f with ⟨onm, oargs⟩
      cases onm with
      | none => simpa [vapiChoicesLoop] using ih post st
      | some nm =>
        by_cases hnm : nm = ""
        · subst hnm; simpa [vapiChoicesLoop] using ih post st
        · cases oid with
          | none => simpa [vapiChoicesLoop, hnm] using ih post st
          | some id =>
            by_cases hid : id = ""
            · subst hid; simpa [vapiChoicesLoop, hnm] using ih post st
            · by_cases hgen : nm = "generate_choices"
              · subst hgen
                rcases hmi : gather2 env st
                  (getArg (argsOrEmpty oargs) "choice_a_prompt" "Option A")
                  (getArg (argsOrEmpty oargs) "choice_b_prompt" "Option B")
                  with ⟨st1, r⟩
                cases r with
                | error e => simp [vapiChoicesLoop, hid, hmi]
                | ok p =>
                  rcases p with ⟨ua, ub⟩
                  simp [vapiChoicesLoop, hid, hmi]
                  rw [ih post st1]
                  exact ⟨rfl, rfl⟩
              · simp [vapiChoicesLoop, hnm, hid, hgen]
                rw [ih post st]
                exact ⟨rfl, rfl⟩

/-- C5: an entry missing its function, its function name or its id (or
with an empty name or id) is skipped entirely — both webhook loops behave
exactly as if the entry were absent, so no result is emitted for it while
all remaining entries are still processed. -/
theorem C5_malformed_entry_silently_dropped (env : Env) (tc : VapiToolCall)
    (h : tcWellFormed tc = false) (pre post : List VapiToolCall) (st : St) :
    vapiSceneLoop env st (pre ++ tc :: post)
      = vapiSceneLoop env st (pre ++ post) ∧
    vapiChoicesLoop env st (pre ++ tc :: post)
      = vapiChoicesLoop env st (pre ++ post) ∧
    wellFormedIds (pre ++ tc :: post) = wellFormedIds (pre ++ post) :=
  ⟨vapiSceneLoop_skip env tc h pre post st,
   vapiChoicesLoop_skip env tc h pre post st,
   by simp [wellFormedIds, List.filterMap_append, List.filterMap_cons, h]⟩

/-- C5 witness: an entry with no id is dropped between two well-formed
entries. -/
theorem C5_malformed_entry_silently_dropped_witness :
    vapiSceneLoop envOk st0
      [tcScene "idA" "p", ⟨none, none, some ⟨some "generate_scene", none⟩⟩,
       tcScene "idB" "q"]
      = vapiSceneLoop envOk st0 [tcScene "idA" "p", tcScene "idB" "q"] ∧
    vapiChoicesLoop envOk st0
      [tcScene "idA" "p", ⟨none, none, some ⟨some "generate_scene", none⟩⟩,
       tcScene "idB" "q"]
      = vapiChoicesLoop envOk st0 [tcScene "idA" "p", tcScene "idB" "q"] ∧
    wellFormedIds
      [tcScene "idA" "p", ⟨none, none, some ⟨some "generate_scene", none⟩⟩,
       tcScene "idB" "q"]
      = wellFormedIds [tcScene "idA" "p", tcScene "idB" "q"] :=
  C5_malformed_entry_silently_dropped envOk
    ⟨none, none, some ⟨some "generate_scene", none⟩⟩ rfl
    [tcScene "idA" "p"] [tcScene "idB" "q"] st0


/-- C8: a well-formed entry whose name the handling endpoint does not
recognize — including the sibling tool's name sent to the other endpoint —
produces a result entry carrying that entry's id and the text
`Unknown tool: name`; the entry changes no state, raises nothing, and a
request holding only such an entry is answered HTTP 200 with exactly that
informational result. -/
theorem C8_unknown_tool_informational_result (env : Env) (st : St)
    (rest : List VapiToolCall) (id nm : String) (t : Option String)
    (argsOpt : Option (List (String × String)))
    (hid : id ≠ "") (hnm : nm ≠ "") :
    (nm ≠ "generate_scene" →
      (vapiSceneLoop env st
          (⟨some id, t, some ⟨some nm, argsOpt⟩⟩ :: rest)).1
        = (vapiSceneLoop env st rest).1 ∧
      (vapiSceneLoop env st
          (⟨some id, t, some ⟨some nm, argsOpt⟩⟩ :: rest)).2
        = Except.map (fun l => ⟨id, "Unknown tool: " ++ nm⟩ :: l)
            (vapiSceneLoop env st rest).2 ∧
      (vapi_generate_scene env st
          (.parsed ⟨some ⟨none,
            some [⟨some id, t, some ⟨some nm, argsOpt⟩⟩]⟩⟩)).2
        = ⟨200, ⟨[⟨id, "Unknown tool: " ++ nm⟩]⟩⟩) ∧
    (nm ≠ "generate_choices" →
      (vapiChoicesLoop env st
          (⟨some id, t, some ⟨some nm, argsOpt⟩⟩ :: rest)).1
        = (vapiChoicesLoop env st rest).1 ∧
      (vapiChoicesLoop env st
          (⟨some id, t, some ⟨some nm, argsOpt⟩⟩ :: rest)).2
        = Except.map (fun l => ⟨id, "Unknown tool: " ++ nm⟩ :: l)
            (vapiChoicesLoop env st rest).2 ∧
      (vapi_generate_choices env st
          (.parsed ⟨some ⟨none,
            some [⟨some id, t, some ⟨some nm, argsOpt⟩⟩]⟩⟩)).2
        = ⟨200, ⟨[⟨id, "Unknown tool: " ++ nm⟩]⟩⟩) := by
  constructor
  · intro hs
    refine ⟨?_, ?_, ?_⟩
    · rcases hrec : vapiSceneLoop env st rest with ⟨st2, rs⟩
      cases rs <;> simp [vapiSceneLoop, hnm, hid, hs, hrec]
    · rcases hrec : vapiSceneLoop env st rest with ⟨st2, rs⟩
      cases rs <;> simp [vapiSceneLoop, hnm, hid, hs, hrec, Except.map]
    · simp [vapi_generate_scene, vapiSceneLoop, hnm, hid, hs]
  · intro hc
    refine ⟨?_, ?_, ?_⟩
    · rcases hrec : vapiChoicesLoop env st rest with ⟨st2, rs⟩
      cases rs <;> simp [vapiChoicesLoop, hnm, hid, hc, hrec]
    · rcases hrec : vapiChoicesLoop env st rest with ⟨st2, rs⟩
      cases rs <;> simp [vapiChoicesLoop, hnm, hid, hc, hrec, Except.map]
    · simp [vapi_generate_choices, vapiChoicesLoop, hnm, hid, hc]

/-- C8 witness: the sibling tool names are unrecognized at the opposite
endpoints — a `generate_choices` call at the scene endpoint and a
`generate_scene` call at the choices endpoint each get the informational
result. -/
theorem C8_unknown_tool_informational_result_witness :
    (vapi_generate_scene envOk st0
        (.parsed ⟨some ⟨none,
          some [⟨some "id7", none, some ⟨some "generate_choices", none⟩⟩]⟩⟩)).2
      = ⟨200, ⟨[⟨"id7", "Unknown tool: generate_choices"⟩]⟩⟩ ∧
    (vapi_generate_choices envOk st0
        (.parsed ⟨some ⟨none,
          some [⟨some "id7", none, some ⟨some "generate_scene", none⟩⟩]⟩⟩)).2
      = ⟨200, ⟨[⟨"id7", "Unknown tool: generate_scene"⟩]⟩⟩ :=
  ⟨((C8_unknown_tool_informational_result envOk st0 [] "id7"
      "generate_choices" none none (by decide) (by decide)).1 (by decide)).2.2,
   ((C8_unknown_tool_informational_result envOk st0 [] "id7"
      "generate_scene" none none (by decide) (by decide)).2 (by decide)).2.2⟩

/-- C10: a recognized tool call behaves exactly as the same call whose
argument mapping explicitly binds every optional field to its effective
value read by `.get(key, default)` — and for each field whose key is
missing from the mapping (absent mapping, other fields present, or only
unrelated keys), that effective value is the declared default string
(`A mysterious adventure scene...`, `Option A`, `Option B`, `Choice A`,
`Choice B`); the call is processed normally rather than failing. -/
theorem C10_missing_args_fall_back_to_defaults (env : Env) (st : St)
    (rest : List VapiToolCall) (id : String) (t : Option String)
    (argsOpt : Option (List (String × String))) (hid : id ≠ "") :
    vapiSceneLoop env st
      (⟨some id, t, some ⟨some "generate_scene", argsOpt⟩⟩ :: rest)
      = vapiSceneLoop env st
        (⟨some id, t, some ⟨some "generate_scene",
          some [("scene_prompt",
            getArg (argsOrEmpty argsOpt) "scene_prompt"
              "A mysterious adventure scene...")]⟩⟩ :: rest) ∧
    vapiChoicesLoop env st
      (⟨some id, t, some ⟨some "generate_choices", argsOpt⟩⟩ :: rest)
      = vapiChoicesLoop env st
        (⟨some id, t, some ⟨some "generate_choices",
          some [("choice_a_prompt",
                  getArg (argsOrEmpty argsOpt) "choice_a_prompt" "Option A"),
                ("choice_b_prompt",
                  getArg (argsOrEmpty argsOpt) "choice_b_prompt" "Option B"),
                ("choice_a_text",
                  getArg (argsOrEmpty argsOpt) "choice_a_text" "Choice A"),
                ("choice_b_text",
                  getArg (argsOrEmpty argsOpt) "choice_b_text" "Choice B")]⟩⟩
          :: rest) ∧
    (∀ k d, (argsOrEmpty argsOpt).find? (fun kv => kv.1 = k) = none →
      getArg (argsOrEmpty argsOpt) k d = d) := by
  refine ⟨?_, ?_, ?_⟩
  · have e1 : getArg
        (argsOrEmpty (some [("scene_prompt",
          getArg (argsOrEmpty argsOpt) "scene_prompt"
            "A mysterious adventure scene...")]))
        "scene_prompt" "A mysterious adventure scene..."
        = getArg (argsOrEmpty argsOpt) "scene_prompt"
            "A mysterious adventure scene..." := by
      simp [getArg, argsOrEmpty]
    simp only [vapiSceneLoop, e1]
  · have e2 : getArg
        (argsOrEmpty (some [("choice_a_prompt",
            getArg (argsOrEmpty argsOpt) "choice_a_prompt" "Option A"),
          ("choice_b_prompt",
            getArg (argsOrEmpty argsOpt) "choice_b_prompt" "Option B"),
          ("choice_a_text",
            getArg (argsOrEmpty argsOpt) "choice_a_text" "Choice A"),
          ("choice_b_text",
            getArg (argsOrEmpty argsOpt) "choice_b_text" "Choice B")]))
        "choice_a_prompt" "Option A"
        = getArg (argsOrEmpty argsOpt) "choice_a_prompt" "Option A" := by
      simp [getArg, argsOrEmpty]
    have e3 : getArg
        (argsOrEmpty (some [("choice_a_prompt",
            getArg (argsOrEmpty argsOpt) "choice_a_prompt" "Option A"),
          ("choice_b_prompt",
            getArg (argsOrEmpty argsOpt) "choice_b_prompt" "Option B"),
          ("choice_a_text",
            getArg (argsOrEmpty argsOpt) "choice_a_text" "Choice A"),
          ("choice_b_text",
            getArg (argsOrEmpty argsOpt) "choice_b_text" "Choice B")]))
        "choice_b_prompt" "Option B"
        = getArg (argsOrEmpty argsOpt) "choice_b_prompt" "Option B" := by
      simp [getArg, argsOrEmpty]
    have e4 : getArg
        (argsOrEmpty (some [("choice_a_prompt",
            getArg (argsOrEmpty argsOpt) "choice_a_prompt" "Option A"),
          ("choice_b_prompt",
            getArg (argsOrEmpty argsOpt) "choice_b_prompt" "Option B"),
          ("choice_a_text",
            getArg (argsOrEmpty argsOpt) "choice_a_text" "Choice A"),
          ("choice_b_text",
            getArg (argsOrEmpty argsOpt) "choice_b_text" "Choice B")]))
        "choice_a_text" "Choice A"
        = getArg (argsOrEmpty argsOpt) "choice_a_text" "Choice A" := by
      simp [getArg, argsOrEmpty]
    have e5 : getArg
        (argsOrEmpty (some [("choice_a_prompt",
            getArg (argsOrEmpty argsOpt) "choice_a_prompt" "Option A"),
          ("choice_b_prompt",
            getArg (argsOrEmpty argsOpt) "choice_b_prompt" "Option B"),
          ("choice_a_text",
            getArg (argsOrEmpty argsOpt) "choice_a_text" "Choice A"),
          ("choice_b_text",
            getArg (argsOrEmpty argsOpt) "choice_b_text" "Choice B")]))
        "choice_b_text" "Choice B"
        = getArg (argsOrEmpty argsOpt) "choice_b_text" "Choice B" := by
      simp [getArg, argsOrEmpty]
    simp only [vapiChoicesLoop, e2, e3, e4, e5]
  · intro k d hk
    simp [getArg, hk]

/-- C10 witness: a `generate_choices` call supplying only
`choice_a_prompt` plus an unrelated key behaves like the call with the
three missing fields bound to their defaults, and the missing
`choice_b_prompt` falls back to `Option B`. -/
theorem C10_missing_args_fall_back_to_defaults_witness :
    vapiChoicesLoop envOk st0
      [⟨some "id3", none, some ⟨some "generate_choices",
        some [("choice_a_prompt", "a castle"), ("extra", "x")]⟩⟩]
      = vapiChoicesLoop envOk st0
        [⟨some "id3", none, some ⟨some "generate_choices",
          some [("choice_a_prompt", "a castle"),
                ("choice_b_prompt", "Option B"),
                ("choice_a_text", "Choice A"),
                ("choice_b_text", "Choice B")]⟩⟩] ∧
    getArg (argsOrEmpty (some [("choice_a_prompt", "a castle"),
        ("extra", "x")])) "choice_b_prompt" "Option B" = "Option B" :=
  ⟨(C10_missing_args_fall_back_to_defaults envOk st0 [] "id3" none
      (some [("choice_a_prompt", "a castle"), ("extra", "x")])
      (by decide)).2.1,
   (C10_missing_args_fall_back_to_defaults envOk st0 [] "id3" none
      (some [("choice_a_prompt", "a castle"), ("extra", "x")])
      (by decide)).2.2 "choice_b_prompt" "Option B" rfl⟩
